import Mathlib

/-
Verification of the word-to-base64-image pipeline (src/word2base64image.py).

The single function `word_to_base64image` is embedded shallowly:
  * path arithmetic (os.path.dirname / basename / splitext / join on POSIX)
    is implemented over character lists exactly as in CPython's posixpath;
  * the external world (filesystem existence, the LibreOffice subprocess
    outcome, the Word-COM outcome, the PDF page renderer, the JPEG encoder)
    is an explicit environment `Env`;
  * the function's observable behaviour is split into `runResult` (the
    returned value / raised error) and `runEvents` (the ordered trace of
    side effects: mkdir, subprocess spawn, os.replace, COM attempt, and the
    two artifact writes), paired up in `word_to_base64image`;
  * base64 (Python's base64.b64encode, RFC 4648 standard alphabet with
    padding) is implemented concretely in `b64encode`.
-/

namespace Word2Image

/-- A rasterized page image: an RGB bitmap with pixel dimensions and raw
sample bytes, as built by Image.frombytes("RGB", (pix.width, pix.height),
pix.samples) on line 106. -/
structure Img where
  width : Nat
  height : Nat
  samples : List Nat
  deriving DecidableEq

/-- Default image value for List.getD lookups. -/
def imgD : Img := ⟨0, 0, []⟩

/-- Default placement value for List.getD lookups. -/
def plD : Nat × Nat × Img := (0, 0, imgD)

/-- The composite canvas: the Image.new('RGB', (w, h), fill) allocation of
line 117 together with every paste performed on it, each recorded as
(x_offset, y_offset, image) in paste order. -/
structure Canvas where
  width : Nat
  height : Nat
  fill : Nat × Nat × Nat
  placements : List (Nat × Nat × Img)
  deriving DecidableEq

/-- Line 115: total_height = sum(img.height for img in images). -/
def total_height (images : List Img) : Nat := (images.map Img.height).sum

/-- Line 116: max_width = max(img.width for img in images).  Folding with 0
agrees with Python's max on every list the code reaches (the list is checked
non-empty on line 111, and widths are non-negative). -/
def max_width (images : List Img) : Nat := (images.map Img.width).foldr Nat.max 0

/-- The paste loop of lines 119-123: y_offset starts at 0; each image is
pasted at x_offset = (max_width - img.width) // 2 and the current y_offset,
which then advances by img.height.  Nat subtraction agrees with Python's
int subtraction here because the loop is only run with mw = max_width of
the very same list, which is never below img.width. -/
def pasteAll (mw : Nat) : List Img → Nat → List (Nat × Nat × Img)
  | [], _ => []
  | img :: rest, y => ((mw - img.width) / 2, y, img) :: pasteAll mw rest (y + img.height)

/-- Lines 115-123: allocate the white canvas and run the paste loop. -/
def concatImages (images : List Img) : Canvas :=
  { width := max_width images
    height := total_height images
    fill := (255, 255, 255)
    placements := pasteAll (max_width images) images 0 }

/-- Sum of the heights of the first i images: the vertical offset the paste
loop has accumulated when it reaches image i. -/
def heightsBefore (l : List Img) (i : Nat) : Nat := ((l.take i).map Img.height).sum

/-- Index of the last occurrence of a character, -1 when absent: Python's
str.rfind restricted to a single-character needle. -/
def rfindChar : List Char → Char → Int
  | [], _ => -1
  | a :: rest, c =>
      let r := rfindChar rest c
      if 0 ≤ r then r + 1 else if a = c then 0 else -1

/-- posixpath.basename: everything after the last slash. -/
def basenameL (p : List Char) : List Char := p.drop (rfindChar p '/' + 1).toNat

/-- posixpath.basename on strings (os.path.basename, line 32). -/
def basename (p : String) : String := ⟨basenameL p.data⟩

/-- posixpath.dirname: everything up to the last slash, with trailing
slashes stripped unless the head consists only of slashes. -/
def dirnameL (p : List Char) : List Char :=
  let head := p.take (rfindChar p '/' + 1).toNat
  if head.any (fun c => c != '/') then (head.reverse.dropWhile (fun c => c == '/')).reverse
  else head

/-- posixpath.dirname on strings (os.path.dirname, line 31). -/
def dirname (p : String) : String := ⟨dirnameL p.data⟩

/-- posixpath.splitext, root component: split at the last dot, provided it
lies after the last slash and a non-dot character stands between the start
of the base name and that dot. -/
def splitextRootL (p : List Char) : List Char :=
  let sepIndex := rfindChar p '/'
  let dotIndex := rfindChar p '.'
  if sepIndex < dotIndex then
    let mid := (p.drop (sepIndex + 1).toNat).take (dotIndex - sepIndex - 1).toNat
    if mid.any (fun c => c != '.') then p.take dotIndex.toNat else p
  else p

/-- posixpath.join for two components (os.path.join). -/
def joinPath (a b : String) : String :=
  if b.data.head? = some '/' then b
  else if a = "" ∨ a.data.getLast? = some '/' then a ++ b
  else a ++ "/" ++ b

/-- Line 31: word_dir = os.path.dirname(word_path). -/
def word_dir (word_path : String) : String := dirname word_path

/-- Line 32: word_name = os.path.basename(word_path). -/
def word_name (word_path : String) : String := basename word_path

/-- Line 33: name_without_ext = os.path.splitext(word_name)[0]. -/
def name_without_ext (word_path : String) : String :=
  ⟨splitextRootL (word_name word_path).data⟩

/-- Line 36: output_folder = os.path.join(word_dir, name_without_ext). -/
def output_folder (word_path : String) : String :=
  joinPath (word_dir word_path) (name_without_ext word_path)

/-- Line 40: pdf_path = os.path.join(output_folder, f"{name_without_ext}.pdf"). -/
def pdf_path (word_path : String) : String :=
  joinPath (output_folder word_path) (name_without_ext word_path ++ ".pdf")

/-- Line 41: image_path = os.path.join(output_folder, "img.jpg"). -/
def image_path (word_path : String) : String :=
  joinPath (output_folder word_path) "img.jpg"

/-- Line 42: base64_txt_path = os.path.join(output_folder, "base64.txt"). -/
def base64_txt_path (word_path : String) : String :=
  joinPath (output_folder word_path) "base64.txt"

/-- Line 59: generated_pdf = os.path.join(output_folder, name_without_ext + ".pdf"). -/
def generated_pdf (word_path : String) : String :=
  joinPath (output_folder word_path) (name_without_ext word_path ++ ".pdf")

/-- Outcome of the subprocess.run(['libreoffice', ...], check=True,
timeout=120) call of lines 50-56, as seen by the except clauses. -/
inductive LoOutcome
  | toolNotFound
  | timeout
  | exitNonzero (stderr : String)
  | exit0
  deriving DecidableEq

/-- Outcome of the Word-COM block of lines 75-91. -/
inductive ComOutcome
  | importError
  | comException (msg : String)
  | success
  deriving DecidableEq

/-- The external world: filesystem, backend behaviours, the PDF's pages as
rendered by fitz at the ambient zoom, and the JPEG encoder (canvas and
quality to bytes). -/
structure Env where
  fsExists : String → Bool
  loOutcome : LoOutcome
  loPdfExists : Bool
  osName : String
  comOutcome : ComOutcome
  pageCount : Nat
  pix : Nat → Img
  jpegBytes : Canvas → Nat → List Nat

/-- Observable side effects of one invocation, in order. -/
inductive Event
  | mkdirEv (path : String)
  | spawnLo (timeoutSec : Nat) (outdir : String) (src : String)
  | replaceEv (src : String) (dst : String)
  | comAttempt
  | saveJpeg (path : String) (canvas : Canvas) (quality : Nat)
  | writeText (path : String) (content : String)
  deriving DecidableEq

/-- The exceptions the function raises, under the spec's names:
notFoundError is the FileNotFoundError of line 28, conversionError the
RuntimeError of line 94, emptyDocumentError the ValueError of line 112. -/
inductive Err
  | notFoundError (msg : String)
  | conversionError (msg : String)
  | emptyDocumentError (msg : String)
  deriving DecidableEq

/-- Message of the RuntimeError raised on line 94. -/
def convFailMsg : String :=
  "所有 Word → PDF 转换方式均失败，请检查 LibreOffice 或 Microsoft Office 安装"

/-- Message of the ValueError raised on line 112. -/
def emptyDocMsg : String := "PDF 中没有可转换的页面"

/-- Backend A, lines 49-71: run the LibreOffice subprocess (timeout 120).
On exit 0, check for the generated PDF; move it onto pdf_path only when the
two paths differ.  Every exception leaves converted = False.  Returns the
converted flag and the events of this stage. -/
def stageA (env : Env) (wp : String) : Bool × List Event :=
  let spawn := Event.spawnLo 120 (output_folder wp) wp
  match env.loOutcome with
  | LoOutcome.toolNotFound => (false, [spawn])
  | LoOutcome.timeout => (false, [spawn])
  | LoOutcome.exitNonzero _ => (false, [spawn])
  | LoOutcome.exit0 =>
      if env.loPdfExists = true then
        if generated_pdf wp ≠ pdf_path wp then
          (true, [spawn, Event.replaceEv (generated_pdf wp) (pdf_path wp)])
        else (true, [spawn])
      else (false, [spawn])

/-- Backend B, lines 75-91: the Word-COM attempt; ImportError and any COM
exception leave converted = False. -/
def stageB (env : Env) : Bool × List Event :=
  match env.comOutcome with
  | ComOutcome.importError => (false, [Event.comAttempt])
  | ComOutcome.comException _ => (false, [Event.comAttempt])
  | ComOutcome.success => (true, [Event.comAttempt])

/-- Events of the line-74 fallback: backend B runs only when backend A has
not converted and os.name == 'nt'. -/
def backendBEvents (env : Env) (wp : String) : List Event :=
  if !(stageA env wp).1 && env.osName == "nt" then (stageB env).2 else []

/-- The converted flag after both backend blocks (lines 48-91). -/
def convertedFlag (env : Env) (wp : String) : Bool :=
  if !(stageA env wp).1 && env.osName == "nt" then (stageB env).1 else (stageA env wp).1

/-- Events up to the end of the backend phase: the os.makedirs of line 37,
then backend A, then (conditionally) backend B. -/
def preEvents (env : Env) (wp : String) : List Event :=
  Event.mkdirEv (output_folder wp) :: ((stageA env wp).2 ++ backendBEvents env wp)

/-- The rasterization loop of lines 102-107: images starts empty and the
render of page n is appended at iteration n. -/
def rasterizePages (pix : Nat → Img) : Nat → List Img
  | 0 => []
  | n + 1 => rasterizePages pix n ++ [pix n]

/-- The full page sequence rendered from the opened PDF (lines 99-109). -/
def rasterize (env : Env) : List Img := rasterizePages env.pix env.pageCount

/-- The standard base64 alphabet. -/
def b64Alphabet : List Char :=
  "ABCDEFGHIJKLMNOPQRSTUVWXYZabcdefghijklmnopqrstuvwxyz0123456789+/".data

/-- Character for a 6-bit value. -/
def b64Char (n : Nat) : Char := b64Alphabet.getD n 'A'

/-- base64.b64encode on a byte list (RFC 4648, with '=' padding). -/
def b64encode : List Nat → List Char
  | [] => []
  | [a] => [b64Char (a / 4 % 64), b64Char (a % 4 * 16), '=', '=']
  | [a, b] => [b64Char (a / 4 % 64), b64Char (a % 4 * 16 + b / 16 % 16),
               b64Char (b % 16 * 4), '=']
  | a :: b :: c :: rest =>
      b64Char (a / 4 % 64) :: b64Char (a % 4 * 16 + b / 16 % 16) ::
      b64Char (b % 16 * 4 + c / 64 % 4) :: b64Char (c % 64) :: b64encode rest

/-- Lines 130-133: the data URL written to base64.txt, built from the JPEG
encoding (quality 95) of the composite canvas. -/
def dataUrl (env : Env) : String :=
  "data:image/jpeg;base64," ++
    String.mk (b64encode (env.jpegBytes (concatImages (rasterize env)) 95))

/-- The returned value or raised exception of word_to_base64image:
line 27 existence check, lines 48-94 conversion, line 111 empty check,
line 140 return of the three output paths. -/
def runResult (env : Env) (wp : String) : Except Err (String × String × String) :=
  if env.fsExists wp = false then
    Except.error (Err.notFoundError ("Word 文件未找到: " ++ wp))
  else if convertedFlag env wp = false then
    Except.error (Err.conversionError convFailMsg)
  else if rasterize env = [] then
    Except.error (Err.emptyDocumentError emptyDocMsg)
  else
    Except.ok (pdf_path wp, image_path wp, base64_txt_path wp)

/-- The ordered side-effect trace of the same invocation: nothing before
the existence check fails; the makedirs/backend events otherwise; then the
concatenated.save of line 126 and the base64.txt write of lines 135-136 on
the success path. -/
def runEvents (env : Env) (wp : String) : List Event :=
  if env.fsExists wp = false then []
  else if convertedFlag env wp = false then preEvents env wp
  else if rasterize env = [] then preEvents env wp
  else
    preEvents env wp ++
      [Event.saveJpeg (image_path wp) (concatImages (rasterize env)) 95,
       Event.writeText (base64_txt_path wp) (dataUrl env)]

/-- The whole observable behaviour of one call: result and trace. -/
def word_to_base64image (env : Env) (wp : String) :
    Except Err (String × String × String) × List Event :=
  (runResult env wp, runEvents env wp)

/-- True on the subprocess-spawn event. -/
def isSpawnLo : Event → Bool
  | Event.spawnLo _ _ _ => true
  | _ => false

/-- True on the os.replace event. -/
def isReplaceEv : Event → Bool
  | Event.replaceEv _ _ => true
  | _ => false

/-- True on either artifact write (img.jpg or base64.txt). -/
def isArtifactWrite : Event → Bool
  | Event.saveJpeg _ _ _ => true
  | Event.writeText _ _ => true
  | _ => false

/-- True on the base64.txt text write. -/
def isWriteText : Event → Bool
  | Event.writeText _ _ => true
  | _ => false

/-- Substring helper for the C4 analysis: leadsWith n h decides whether n
is an initial segment of h. -/
def leadsWith : List Char → List Char → Bool
  | [], _ => true
  | _ :: _, [] => false
  | a :: as, b :: bs => a == b && leadsWith as bs

/-- containsSub n h decides whether n occurs contiguously inside h. -/
def containsSub (needle : List Char) : List Char → Bool
  | [] => needle.isEmpty
  | b :: bs => leadsWith needle (b :: bs) || containsSub needle bs

/-- Concrete page renderer for witnesses. -/
def pixDemo : Nat → Img := fun i => { width := 100 + i, height := 5, samples := [] }

/-- Witness environment: LibreOffice succeeds, two pages, JPEG bytes fixed. -/
def envOk : Env :=
  { fsExists := fun _ => true
    loOutcome := LoOutcome.exit0
    loPdfExists := true
    osName := "posix"
    comOutcome := ComOutcome.importError
    pageCount := 2
    pix := pixDemo
    jpegBytes := fun _ _ => [77, 97, 110] }

/-- Witness environment: the source file is missing. -/
def envMissing : Env := { envOk with fsExists := fun _ => false }

/-- Witness environment: conversion succeeds but the PDF has zero pages. -/
def envEmptyPdf : Env := { envOk with pageCount := 0 }

/-- Witness environment: LibreOffice exits non-zero, COM raises; both
failure reasons are distinctive strings. -/
def envBothFail : Env :=
  { envOk with
      loOutcome := LoOutcome.exitNonzero "LIBRE_STDERR_7391"
      loPdfExists := false
      osName := "nt"
      comOutcome := ComOutcome.comException "COM_ERR_4482" }

/-- Witness environment: same failure shape as envBothFail but with
different reasons (timeout, another COM message). -/
def envBothFail2 : Env :=
  { envOk with
      loOutcome := LoOutcome.timeout
      loPdfExists := false
      osName := "nt"
      comOutcome := ComOutcome.comException "some other reason" }

/-- Witness environment: LibreOffice exits 0 but leaves no PDF behind. -/
def envNoPdf : Env := { envOk with loPdfExists := false }

/-- Witness environment: LibreOffice missing, Word COM succeeds. -/
def envViaCom : Env :=
  { envOk with
      loOutcome := LoOutcome.toolNotFound
      osName := "nt"
      comOutcome := ComOutcome.success }

/-- Witness page list: the three page sizes of the spec's property P1. -/
def imagesP1 : List Img := [⟨100, 50, []⟩, ⟨80, 60, []⟩, ⟨120, 40, []⟩]

end Word2Image

namespace Word2Image

/-- max_width on a cons is the max of the head width and the tail max. -/
lemma max_width_cons (a : Img) (t : List Img) :
    max_width (a :: t) = Nat.max a.width (max_width t) := rfl

/-- Every width in the list is bounded by max_width. -/
lemma le_max_width (images : List Img) (img : Img) (h : img ∈ images) :
    img.width ≤ max_width images := by
  induction images with
  | nil => cases h
  | cons a t ih =>
      rw [max_width_cons]
      rcases List.mem_cons.mp h with h1 | h1
      · rw [h1]; exact Nat.le_max_left _ _
      · exact Nat.le_trans (ih h1) (Nat.le_max_right _ _)

/-- On a non-empty list, max_width is one of the widths. -/
lemma max_width_mem (images : List Img) (h : images ≠ []) :
    max_width images ∈ images.map Img.width := by
  induction images with
  | nil => exact absurd rfl h
  | cons a t ih =>
      cases t with
      | nil => simp [max_width]
      | cons b u =>
          have hmem := ih (by simp)
          rw [max_width_cons]
          rcases Nat.le_total (max_width (b :: u)) a.width with hle | hle
          · have heq : Nat.max a.width (max_width (b :: u)) = a.width := Nat.max_eq_left hle
            rw [heq]; simp
          · have heq : Nat.max a.width (max_width (b :: u)) = max_width (b :: u) :=
              Nat.max_eq_right hle
            rw [heq]
            simp only [List.map_cons, List.mem_cons]
            simp only [List.map_cons, List.mem_cons] at hmem
            exact Or.inr hmem

/-- The paste loop emits one placement per image. -/
lemma pasteAll_length (mw : Nat) (l : List Img) (y : Nat) :
    (pasteAll mw l y).length = l.length := by
  induction l generalizing y with
  | nil => rfl
  | cons a t ih => simp [pasteAll, ih]

/-- heightsBefore on a cons, at a successor index. -/
lemma heightsBefore_cons_succ (a : Img) (t : List Img) (n : Nat) :
    heightsBefore (a :: t) (n + 1) = a.height + heightsBefore t n := by
  simp [heightsBefore]

/-- Placement i of the paste loop started at vertical cursor y: horizontal
offset (mw - width i) / 2, vertical offset y plus the heights of the
preceding images, image unchanged. -/
lemma pasteAll_getD (mw : Nat) (l : List Img) (y i : Nat) (h : i < l.length) :
    (pasteAll mw l y).getD i plD =
      ((mw - (l.getD i imgD).width) / 2, y + heightsBefore l i, l.getD i imgD) := by
  induction l generalizing y i with
  | nil => simp at h
  | cons a t ih =>
      cases i with
      | zero => simp [pasteAll, heightsBefore]
      | succ n =>
          have hn : n < t.length := Nat.lt_of_succ_lt_succ h
          have hrec := ih (y + a.height) n hn
          simp only [pasteAll, List.getD_cons_succ, heightsBefore_cons_succ, hrec,
            Nat.add_assoc]

/-- Stepping heightsBefore by one adds the height of image i. -/
lemma heightsBefore_succ (l : List Img) (i : Nat) (h : i < l.length) :
    heightsBefore l (i + 1) = heightsBefore l i + (l.getD i imgD).height := by
  induction l generalizing i with
  | nil => simp at h
  | cons a t ih =>
      cases i with
      | zero => simp [heightsBefore]
      | succ n =>
          have hn : n < t.length := Nat.lt_of_succ_lt_succ h
          rw [heightsBefore_cons_succ, heightsBefore_cons_succ, List.getD_cons_succ,
            ih n hn, Nat.add_assoc]

/-- With positive heights, heightsBefore is strictly increasing up to the
length of the list. -/
lemma heightsBefore_strict (l : List Img)
    (hpos : ∀ k, k < l.length → 0 < (l.getD k imgD).height) :
    ∀ i j, i < j → j ≤ l.length → heightsBefore l i < heightsBefore l j := by
  intro i j
  induction j with
  | zero => intro h _; exact absurd h (Nat.not_lt_zero i)
  | succ n ih =>
      intro hij hj
      have hn : n < l.length := Nat.lt_of_lt_of_le (Nat.lt_succ_self n) hj
      rw [heightsBefore_succ l n hn]
      rcases Nat.lt_or_ge i n with h1 | h1
      · exact Nat.lt_of_lt_of_le (ih h1 (Nat.le_of_lt hn)) (Nat.le_add_right _ _)
      · have h2 : i = n := Nat.le_antisymm (Nat.lt_succ_iff.mp hij) h1
        rw [h2]
        exact Nat.lt_add_of_pos_right (hpos n hn)

/-- The rasterization loop renders exactly pageCount pages. -/
lemma rasterizePages_length (pix : Nat → Img) (n : Nat) :
    (rasterizePages pix n).length = n := by
  induction n with
  | zero => rfl
  | succ m ih => simp [rasterizePages, ih]

/-- Element i of the rasterization loop is the render of page i. -/
lemma rasterizePages_getD (pix : Nat → Img) (n i : Nat) (h : i < n) :
    (rasterizePages pix n).getD i imgD = pix i := by
  induction n with
  | zero => simp at h
  | succ m ih =>
      rw [rasterizePages]
      rcases Nat.lt_or_ge i m with h1 | h1
      · rw [List.getD_append _ _ _ _ (by rw [rasterizePages_length]; exact h1)]
        exact ih h1
      · have h2 : i = m := Nat.le_antisymm (Nat.lt_succ_iff.mp h) h1
        subst h2
        rw [List.getD_append_right _ _ _ _ (by rw [rasterizePages_length])]
        rw [rasterizePages_length]
        simp

/-- The two PDF path constructions of lines 40 and 59 coincide. -/
lemma generated_pdf_eq_pdf_path (wp : String) : generated_pdf wp = pdf_path wp := rfl

/-- Backend A always spawns the LibreOffice subprocess exactly once, with
timeout 120, and emits nothing else (the replace branch is dead because
generated_pdf equals pdf_path). -/
lemma stageA_events (env : Env) (wp : String) :
    (stageA env wp).2 = [Event.spawnLo 120 (output_folder wp) wp] := by
  unfold stageA
  cases env.loOutcome with
  | toolNotFound => rfl
  | timeout => rfl
  | exitNonzero s => rfl
  | exit0 =>
      cases h : env.loPdfExists with
      | false => simp [h]
      | true => simp [h, generated_pdf_eq_pdf_path]

/-- Backend B emits exactly the COM attempt. -/
lemma stageB_events (env : Env) : (stageB env).2 = [Event.comAttempt] := by
  unfold stageB
  cases env.comOutcome <;> rfl

/-- The backend phase trace: mkdir, then the single spawn, then the
(possibly empty) backend-B events. -/
lemma preEvents_shape (env : Env) (wp : String) :
    preEvents env wp =
      Event.mkdirEv (output_folder wp) :: Event.spawnLo 120 (output_folder wp) wp ::
        backendBEvents env wp := by
  unfold preEvents
  rw [stageA_events]
  rfl

/-- The backend-B events are nothing or the single COM attempt. -/
lemma backendBEvents_cases (env : Env) (wp : String) :
    backendBEvents env wp = [] ∨ backendBEvents env wp = [Event.comAttempt] := by
  unfold backendBEvents
  split
  · exact Or.inr (stageB_events env)
  · exact Or.inl rfl

/-- The COM attempt is in the backend-B events exactly when backend A did
not convert and the platform is Windows. -/
lemma com_mem_backendB (env : Env) (wp : String) :
    Event.comAttempt ∈ backendBEvents env wp ↔
      ((stageA env wp).1 = false ∧ env.osName = "nt") := by
  unfold backendBEvents
  cases hb : (!(stageA env wp).1 && env.osName == "nt") with
  | false =>
      simp only [hb, Bool.false_eq_true, if_false]
      constructor
      · intro h
        exact absurd h (List.not_mem_nil _)
      · intro h
        rw [h.1, h.2] at hb
        simp at hb
  | true =>
      simp only [hb, if_true, stageB_events]
      simp only [Bool.and_eq_true, Bool.not_eq_true', beq_iff_eq] at hb
      simp [hb]

/-- The whole trace is the backend-phase trace, possibly followed by the
two artifact writes. -/
lemma runEvents_cases (env : Env) (wp : String) (hex : env.fsExists wp = true) :
    runEvents env wp = preEvents env wp
  ∨ runEvents env wp =
      preEvents env wp ++
        [Event.saveJpeg (image_path wp) (concatImages (rasterize env)) 95,
         Event.writeText (base64_txt_path wp) (dataUrl env)] := by
  unfold runEvents
  rw [hex]
  simp only [Bool.true_eq_false, if_false]
  split
  · exact Or.inl rfl
  · split
    · exact Or.inl rfl
    · exact Or.inr rfl

end Word2Image

namespace Word2Image

/-- Claim C1: for every non-empty sequence of page images the composite
canvas has width equal to the maximum of the page widths (an upper bound
of all widths that is itself one of them), height equal to the sum of the
page heights, is filled white (255,255,255), and page i is pasted at
vertical offset equal to the sum of the heights of all preceding pages and
horizontal offset floor((maxWidth - width_i) / 2). -/
theorem composite_geometry (images : List Img) (h : images ≠ []) :
    (concatImages images).height = (images.map Img.height).sum
  ∧ (concatImages images).fill = (255, 255, 255)
  ∧ (∀ img ∈ images, img.width ≤ (concatImages images).width)
  ∧ (concatImages images).width ∈ images.map Img.width
  ∧ (concatImages images).placements.length = images.length
  ∧ ∀ i, i < images.length →
      (concatImages images).placements.getD i plD =
        (((concatImages images).width - (images.getD i imgD).width) / 2,
         heightsBefore images i,
         images.getD i imgD) := by
  refine ⟨rfl, rfl, ?_, ?_, ?_, ?_⟩
  · intro img hm
    exact le_max_width images img hm
  · exact max_width_mem images h
  · exact pasteAll_length _ _ _
  · intro i hi
    show (pasteAll (max_width images) images 0).getD i plD = _
    rw [pasteAll_getD _ _ _ _ hi, Nat.zero_add]
    rfl

/-- Witness for composite_geometry at the spec's P1 page sizes
100x50, 80x60, 120x40: the middle page lands at offsets (20, 50). -/
theorem composite_geometry_witness :
    imagesP1 ≠ [] ∧
      (concatImages imagesP1).placements.getD 1 plD = (20, 50, ⟨80, 60, []⟩) := by
  refine ⟨by decide, ?_⟩
  have h := (composite_geometry imagesP1 (by decide)).2.2.2.2.2 1 (by decide)
  rw [h]
  rfl

/-- Claim C2: when the rendered PDF has zero pages (and conversion itself
succeeded), the call raises the empty-document error of line 112 and the
trace contains no artifact write: neither img.jpg nor base64.txt is
produced. -/
theorem empty_document_no_artifacts (env : Env) (wp : String)
    (hex : env.fsExists wp = true)
    (hconv : convertedFlag env wp = true)
    (hpc : env.pageCount = 0) :
    runResult env wp = Except.error (Err.emptyDocumentError emptyDocMsg)
  ∧ (runEvents env wp).filter isArtifactWrite = [] := by
  have hras : rasterize env = [] := by
    rw [rasterize, hpc]
    rfl
  constructor
  · unfold runResult
    simp [hex, hconv, hras]
  · unfold runEvents
    simp only [hex, hconv, hras, Bool.true_eq_false, if_false, if_true]
    rw [preEvents_shape]
    rcases backendBEvents_cases env wp with hbb | hbb <;> rw [hbb] <;> rfl

/-- Witness for empty_document_no_artifacts on a zero-page environment. -/
theorem empty_document_no_artifacts_witness :
    envEmptyPdf.fsExists "a.docx" = true
  ∧ convertedFlag envEmptyPdf "a.docx" = true
  ∧ envEmptyPdf.pageCount = 0
  ∧ runResult envEmptyPdf "a.docx" = Except.error (Err.emptyDocumentError emptyDocMsg)
  ∧ (runEvents envEmptyPdf "a.docx").filter isArtifactWrite = [] :=
  ⟨rfl, rfl, rfl, empty_document_no_artifacts envEmptyPdf "a.docx" rfl rfl rfl⟩

/-- Claim C3: a non-existent source path raises the line-28 not-found
error with an empty trace: no directory is created, no process spawned,
no file written. -/
theorem missing_source_rejected (env : Env) (wp : String)
    (h : env.fsExists wp = false) :
    runResult env wp = Except.error (Err.notFoundError ("Word 文件未找到: " ++ wp))
  ∧ runEvents env wp = [] := by
  constructor
  · unfold runResult
    rw [h]
    simp
  · unfold runEvents
    rw [h]
    simp

/-- Witness for missing_source_rejected. -/
theorem missing_source_rejected_witness :
    envMissing.fsExists "nope.docx" = false
  ∧ runResult envMissing "nope.docx" =
      Except.error (Err.notFoundError "Word 文件未找到: nope.docx")
  ∧ runEvents envMissing "nope.docx" = [] :=
  ⟨rfl, missing_source_rejected envMissing "nope.docx" rfl⟩

/-- Counterexample to claim C4 as stated: with LibreOffice failing
(non-zero exit, stderr "LIBRE_STDERR_7391") and Word COM failing
(exception "COM_ERR_4482"), the operation raises a ConversionError whose
content is the fixed line-94 message: it contains neither backend's
failure reason as a substring, and an environment with entirely different
failure reasons (timeout, another COM message) produces the identical
error. -/
theorem conversion_error_fixed_message :
    runResult envBothFail "a.docx" = Except.error (Err.conversionError convFailMsg)
  ∧ containsSub "LIBRE_STDERR_7391".data convFailMsg.data = false
  ∧ containsSub "COM_ERR_4482".data convFailMsg.data = false
  ∧ runResult envBothFail "a.docx" = runResult envBothFail2 "a.docx" :=
  ⟨rfl, by decide, by decide, rfl⟩

/-- Claim C4 as amended: if backend A does not succeed (any outcome other
than exit 0 with the generated PDF present) and backend B does not succeed
(platform not Windows, or a non-success COM outcome), the operation fails
with a ConversionError carrying the fixed line-94 message; the individual
failure reasons are only printed to the console and are not part of the
error content. -/
theorem both_backends_fail (env : Env) (wp : String)
    (hex : env.fsExists wp = true)
    (hA : ¬ (env.loOutcome = LoOutcome.exit0 ∧ env.loPdfExists = true))
    (hB : env.osName = "nt" → env.comOutcome ≠ ComOutcome.success) :
    runResult env wp = Except.error (Err.conversionError convFailMsg) := by
  have hAf : (stageA env wp).1 = false := by
    unfold stageA
    cases hlo : env.loOutcome with
    | toolNotFound => rfl
    | timeout => rfl
    | exitNonzero s => rfl
    | exit0 =>
        cases hpdf : env.loPdfExists with
        | true => exact absurd ⟨hlo, hpdf⟩ hA
        | false => simp [hpdf]
  have hBf : convertedFlag env wp = false := by
    unfold convertedFlag
    rw [hAf]
    cases hos : (env.osName == "nt") with
    | false => simp
    | true =>
        have hnt : env.osName = "nt" := by simpa using hos
        have hcom := hB hnt
        simp only [Bool.not_false, Bool.true_and, if_true]
        unfold stageB
        cases hc : env.comOutcome with
        | importError => rfl
        | comException m => rfl
        | success => exact absurd hc hcom
  unfold runResult
  simp [hex, hBf]

/-- Witness for both_backends_fail on the timeout-plus-COM-failure
environment. -/
theorem both_backends_fail_witness :
    envBothFail2.fsExists "b.docx" = true
  ∧ runResult envBothFail2 "b.docx" = Except.error (Err.conversionError convFailMsg) :=
  ⟨rfl, both_backends_fail envBothFail2 "b.docx" rfl (by decide) (by decide)⟩

/-- Claim C5: whenever the source exists, the trace opens with the mkdir
followed immediately by exactly one LibreOffice spawn with timeout 120
(backend A attempted first, never retried: no further spawn occurs), and
the COM attempt of backend B appears in the trace exactly when backend A
did not convert and the platform is Windows. -/
theorem backend_order (env : Env) (wp : String) (hex : env.fsExists wp = true) :
    (runEvents env wp).take 2 =
      [Event.mkdirEv (output_folder wp), Event.spawnLo 120 (output_folder wp) wp]
  ∧ ((runEvents env wp).drop 2).filter isSpawnLo = []
  ∧ (Event.comAttempt ∈ runEvents env wp ↔
      ((stageA env wp).1 = false ∧ env.osName = "nt")) := by
  rcases runEvents_cases env wp hex with hre | hre
  · rw [hre, preEvents_shape]
    refine ⟨rfl, ?_, ?_⟩
    · rcases backendBEvents_cases env wp with hbb | hbb <;> rw [hbb] <;> rfl
    · simp [com_mem_backendB]
  · rw [hre, preEvents_shape]
    refine ⟨rfl, ?_, ?_⟩
    · rcases backendBEvents_cases env wp with hbb | hbb <;> rw [hbb] <;> rfl
    · simp [com_mem_backendB]

/-- Witness for backend_order: LibreOffice missing on Windows, so the COM
attempt follows the single spawn. -/
theorem backend_order_witness :
    envViaCom.fsExists "a.docx" = true
  ∧ (runEvents envViaCom "a.docx").take 2 =
      [Event.mkdirEv "a", Event.spawnLo 120 "a" "a.docx"]
  ∧ Event.comAttempt ∈ runEvents envViaCom "a.docx" := by
  have h := backend_order envViaCom "a.docx" rfl
  refine ⟨rfl, ?_, ?_⟩
  · rw [h.1]
    rfl
  · exact h.2.2.mpr ⟨rfl, rfl⟩

/-- Claim C6: for an N-page document the rasterized sequence has length
exactly N with element i the render of page i, and the pages sit
top-to-bottom in the composite in that order: page 0 at vertical offset 0
and, with positive page heights, strictly increasing offsets. -/
theorem pages_in_order (env : Env)
    (hpc : 0 < env.pageCount)
    (hpos : ∀ i, i < env.pageCount → 0 < (env.pix i).height) :
    (rasterize env).length = env.pageCount
  ∧ (∀ i, i < env.pageCount → (rasterize env).getD i imgD = env.pix i)
  ∧ ((concatImages (rasterize env)).placements.getD 0 plD).2.1 = 0
  ∧ ∀ i j, i < j → j < env.pageCount →
      ((concatImages (rasterize env)).placements.getD i plD).2.1 <
        ((concatImages (rasterize env)).placements.getD j plD).2.1 := by
  have hlen : (rasterize env).length = env.pageCount := rasterizePages_length _ _
  have hget : ∀ i, i < env.pageCount → (rasterize env).getD i imgD = env.pix i :=
    fun i hi => rasterizePages_getD _ _ i hi
  have hY : ∀ i, i < env.pageCount →
      ((concatImages (rasterize env)).placements.getD i plD).2.1 =
        heightsBefore (rasterize env) i := by
    intro i hi
    show ((pasteAll (max_width (rasterize env)) (rasterize env) 0).getD i plD).2.1 = _
    rw [pasteAll_getD _ _ _ _ (by rw [hlen]; exact hi)]
    simp
  refine ⟨hlen, hget, ?_, ?_⟩
  · rw [hY 0 hpc]
    rfl
  · intro i j hij hj
    rw [hY i (Nat.lt_trans hij hj), hY j hj]
    refine heightsBefore_strict (rasterize env) ?_ i j hij (by rw [hlen]; exact Nat.le_of_lt hj)
    intro k hk
    rw [hlen] at hk
    rw [hget k hk]
    exact hpos k hk

/-- Witness for pages_in_order on the two-page environment: page 0 sits
strictly above page 1. -/
theorem pages_in_order_witness :
    0 < envOk.pageCount
  ∧ (rasterize envOk).length = 2
  ∧ ((concatImages (rasterize envOk)).placements.getD 0 plD).2.1 <
      ((concatImages (rasterize envOk)).placements.getD 1 plD).2.1 := by
  have h := pages_in_order envOk (by decide) (fun i _ => Nat.succ_pos 4)
  exact ⟨by decide, h.1, h.2.2.2 0 1 (by decide) (by decide)⟩

/-- Claim C7: on a successful run the single text write of the trace is
base64.txt with content exactly "data:image/jpeg;base64," followed by the
base64 encoding of the quality-95 JPEG bytes of the composite canvas, with
no trailing processing. -/
theorem base64_artifact (env : Env) (wp : String)
    (hex : env.fsExists wp = true)
    (hconv : convertedFlag env wp = true)
    (hpc : 0 < env.pageCount) :
    (runEvents env wp).filter isWriteText =
      [Event.writeText (base64_txt_path wp)
        ("data:image/jpeg;base64," ++
          String.mk (b64encode (env.jpegBytes (concatImages (rasterize env)) 95)))] := by
  have hras : rasterize env ≠ [] := by
    intro hcon
    have hl : (rasterize env).length = env.pageCount := rasterizePages_length _ _
    rw [hcon] at hl
    simp at hl
    omega
  unfold runEvents
  simp only [hex, hconv, hras, Bool.true_eq_false, if_false, if_true, ite_false]
  rw [List.filter_append, preEvents_shape]
  rcases backendBEvents_cases env wp with hbb | hbb <;> rw [hbb] <;> rfl

/-- Witness for base64_artifact: with JPEG bytes [77, 97, 110] the artifact
content is the data URL of "TWFu". -/
theorem base64_artifact_witness :
    envOk.fsExists "documents/demo.docx" = true
  ∧ (runEvents envOk "documents/demo.docx").filter isWriteText =
      [Event.writeText "documents/demo/base64.txt" "data:image/jpeg;base64,TWFu"] := by
  have h := base64_artifact envOk "documents/demo.docx" rfl rfl (by decide)
  refine ⟨rfl, ?_⟩
  rw [h]
  rfl

/-- Claim C8: any successful invocation returns exactly the triple
(pdf_path, image_path, base64_txt_path), a function of the source path
alone, so any two successful invocations on the same source path return
identical triples (same paths, hence overwrite rather than a second
directory). -/
theorem returns_output_paths (env env2 : Env) (wp : String)
    (out out2 : String × String × String)
    (h : runResult env wp = Except.ok out)
    (h2 : runResult env2 wp = Except.ok out2) :
    out = (pdf_path wp, image_path wp, base64_txt_path wp) ∧ out = out2 := by
  have key : ∀ (e : Env) (o : String × String × String),
      runResult e wp = Except.ok o →
        o = (pdf_path wp, image_path wp, base64_txt_path wp) := by
    intro e o ho
    unfold runResult at ho
    split at ho
    · simp at ho
    · split at ho
      · simp at ho
      · split at ho
        · simp at ho
        · simp only [Except.ok.injEq] at ho
          exact ho.symm
  have k1 := key env out h
  have k2 := key env2 out2 h2
  exact ⟨k1, k1.trans k2.symm⟩

/-- Witness for returns_output_paths: the LibreOffice run and the COM run
on the same source path both return the same concrete triple. -/
theorem returns_output_paths_witness :
    ("documents/demo/demo.pdf", "documents/demo/img.jpg", "documents/demo/base64.txt") =
      (pdf_path "documents/demo.docx", image_path "documents/demo.docx",
        base64_txt_path "documents/demo.docx")
  ∧ ("documents/demo/demo.pdf", "documents/demo/img.jpg", "documents/demo/base64.txt") =
      ("documents/demo/demo.pdf", "documents/demo/img.jpg", "documents/demo/base64.txt") :=
  returns_output_paths envOk envViaCom "documents/demo.docx" _ _ rfl rfl

/-- Claim C9: when LibreOffice exits 0 but the expected PDF is absent,
backend A counts as not converted, and the whole observable behaviour
(result and trace) is identical to a run in which backend A failed
outright. -/
theorem exit0_without_pdf (env : Env) (wp : String)
    (h1 : env.loOutcome = LoOutcome.exit0)
    (h2 : env.loPdfExists = false) :
    (stageA env wp).1 = false
  ∧ word_to_base64image env wp =
      word_to_base64image { env with loOutcome := LoOutcome.toolNotFound } wp := by
  have hsA : stageA env wp = stageA { env with loOutcome := LoOutcome.toolNotFound } wp := by
    unfold stageA
    rw [h1]
    simp [h2]
  have hcf : convertedFlag env wp =
      convertedFlag { env with loOutcome := LoOutcome.toolNotFound } wp := by
    unfold convertedFlag
    rw [hsA]
    rfl
  have hpe : preEvents env wp =
      preEvents { env with loOutcome := LoOutcome.toolNotFound } wp := by
    unfold preEvents backendBEvents
    rw [hsA]
    rfl
  have hA : (stageA env wp).1 = false := by
    rw [hsA]
    rfl
  refine ⟨hA, ?_⟩
  unfold word_to_base64image
  have hr : runResult env wp = runResult { env with loOutcome := LoOutcome.toolNotFound } wp := by
    unfold runResult
    rw [hcf]
    rfl
  have he : runEvents env wp = runEvents { env with loOutcome := LoOutcome.toolNotFound } wp := by
    unfold runEvents
    rw [hcf, hpe]
    rfl
  rw [hr, he]

/-- Witness for exit0_without_pdf. -/
theorem exit0_without_pdf_witness :
    envNoPdf.loOutcome = LoOutcome.exit0
  ∧ envNoPdf.loPdfExists = false
  ∧ (stageA envNoPdf "a.docx").1 = false := by
  have h := exit0_without_pdf envNoPdf "a.docx" rfl rfl
  exact ⟨rfl, rfl, h.1⟩

/-- Claim C10: the line 61-62 rename branch is unreachable: generated_pdf
and pdf_path are character-for-character the same construction for every
source path, so the inequality guard is always false and no run ever emits
an os.replace event. -/
theorem replace_never_invoked :
    (∀ wp : String, generated_pdf wp = pdf_path wp)
  ∧ ∀ (env : Env) (wp : String), (runEvents env wp).filter isReplaceEv = [] := by
  refine ⟨fun wp => generated_pdf_eq_pdf_path wp, ?_⟩
  intro env wp
  cases hfs : env.fsExists wp with
  | false =>
      unfold runEvents
      rw [hfs]
      simp
  | true =>
      rcases runEvents_cases env wp hfs with hre | hre <;>
        rw [hre, preEvents_shape] <;>
        rcases backendBEvents_cases env wp with hbb | hbb <;> rw [hbb]
      · rfl
      · rfl
      · rw [List.filter_append]
        rfl
      · rw [List.filter_append]
        rfl

end Word2Image
